import Mathlib

/-!
Verification of the concurrent task orchestrator in `temp_concurrent_airflow`
(`fetch_data.py`, `run_tasks.py`): the retrying fetch job with synthetic
fallback, the process runner, the dependency gate, the orchestrator and the
result aggregator, plus the synthetic OHLCV data generator.

The Python code is shallowly embedded: each subprocess / library call is a
parameter of the embedding (the attempt outcomes of `yfinance`, the success of
filesystem writes, the per-iteration filesystem and result-list observations of
the polling gate, the seeded random streams of `numpy.random.RandomState`),
and the control flow of the scripts is translated into executable Lean
functions over those parameters.
-/

namespace ConcurrentTasks

/-! ## Embedding of fetch_data.py (retry loop with synthetic fallback) -/

/-- What one `yf.Ticker('AAPL').history(period='1mo')` call does on a given
attempt: returns a usable frame, returns an empty/missing frame (which the
script converts into a raised `ValueError`), or raises with some message. -/
inductive AttemptOutcome where
  | success
  | emptyResult
  | raiseErr (msg : String)
deriving DecidableEq

/-- Whether the attempt reached the success path of the `try` block. -/
def AttemptOutcome.isSuccess : AttemptOutcome → Bool
  | .success => true
  | _ => false

/-- The text bound to `last_err` by the `except` handler for a failing
attempt (`traceback.format_exception_only` of the raised exception). -/
def AttemptOutcome.errText : AttemptOutcome → String
  | .success => ""
  | .emptyResult => "ValueError: Empty DataFrame returned by yfinance"
  | .raiseErr msg => msg

/-- How the `for i in range(attempts)` loop of `fetch_data.main` ends:
successful fetch with the CSV written (`sys.exit(0)`), successful fetch but
the CSV write failed (`sys.exit(1)`), or all attempts failed and control
falls through to the synthetic-fallback section carrying `last_err`. -/
inductive LoopEnd where
  | realSuccess
  | realWriteFail
  | fellThrough (lastErr : Option String)
deriving DecidableEq

/-- Observable trace of the retry loop: number of fetch attempts performed,
the `time.sleep` delays in order, and how the loop ended. -/
structure LoopTrace where
  attempts : Nat
  sleeps : List Nat
  ending : LoopEnd
deriving DecidableEq

/-- The retry loop of `fetch_data.main`, one constructor step per loop
iteration.  `i` is the Python loop index, `remaining` the number of
iterations left (`attempts - i`), `delay` the current backoff delay and
`lastErr` the current value of `last_err`.  On a failed attempt with
iterations remaining the script sleeps `delay` seconds and doubles `delay`;
on the last failed attempt it falls through to the fallback section. -/
def fetchLoop (outcomes : Nat → AttemptOutcome) (writeRealOk : Bool) :
    Nat → Nat → Nat → Option String → LoopTrace
  | _, 0, _, lastErr => ⟨0, [], .fellThrough lastErr⟩
  | i, r + 1, delay, _ =>
    if (outcomes i).isSuccess then
      if writeRealOk then ⟨1, [], .realSuccess⟩ else ⟨1, [], .realWriteFail⟩
    else
      if r = 0 then ⟨1, [], .fellThrough (some (outcomes i).errText)⟩
      else
        let rest := fetchLoop outcomes writeRealOk (i + 1) r (delay * 2)
          (some (outcomes i).errText)
        ⟨rest.attempts + 1, delay :: rest.sleeps, rest.ending⟩

/-- Observable result of one run of `fetch_data.main`: attempts made, sleep
delays, process exit code, whether the synthetic-fallback section was
reached, and the `FETCH WARNING` line (if printed). -/
structure FetchRun where
  attempts : Nat
  sleeps : List Nat
  exitCode : Nat
  usedFallback : Bool
  warning : Option String
deriving DecidableEq

/-- Python string form of `last_err` as interpolated into the warning. -/
def lastErrStr : Option String → String
  | none => "None"
  | some s => s

/-- Embedding of `fetch_data.main`: `attempts = 3`, `delay = 2`; the loop
retries the fetch, and if every attempt fails the script writes a synthetic
fallback CSV (succeeding iff `writeSynthOk`), printing a warning that quotes
the last real error.  A failing fallback write exits with code 1. -/
def fetch_main (outcomes : Nat → AttemptOutcome) (writeRealOk writeSynthOk : Bool) :
    FetchRun :=
  let lr := fetchLoop outcomes writeRealOk 0 3 2 none
  match lr.ending with
  | .realSuccess => ⟨lr.attempts, lr.sleeps, 0, false, none⟩
  | .realWriteFail => ⟨lr.attempts, lr.sleeps, 1, false, none⟩
  | .fellThrough lastErr =>
    if writeSynthOk then
      ⟨lr.attempts, lr.sleeps, 0, true,
        some ("FETCH WARNING: Using synthetic fallback data because fetching failed: "
          ++ lastErrStr lastErr)⟩
    else ⟨lr.attempts, lr.sleeps, 1, true, none⟩

/-- Whether any of the three fetch attempts would reach the success path. -/
def anySuccessIn3 (outcomes : Nat → AttemptOutcome) : Bool :=
  (outcomes 0).isSuccess || (outcomes 1).isSuccess || (outcomes 2).isSuccess

/-! ## Embedding of run_tasks.py: run_process -/

/-- Status field of a recorded job result. -/
inductive Status where
  | success
  | failed
deriving DecidableEq

/-- A record appended to the shared `RESULTS` list (`name`, `status`,
`file`, `message`). -/
structure JobOutcome where
  name : String
  status : Status
  file : String
  message : String
deriving DecidableEq

/-- What `subprocess.Popen` + `communicate` does for one command: either the
process runs to completion with captured stdout, stderr and return code, or
launching raises an exception with the given text. -/
inductive SpawnResult where
  | ok (out err : String) (rc : Int)
  | launchFailure (excText : String)
deriving DecidableEq

/-- Python's `str.strip()`: remove leading and trailing whitespace. -/
def pyStrip (s : String) : String :=
  ⟨((s.data.dropWhile Char.isWhitespace).reverse.dropWhile Char.isWhitespace).reverse⟩

/-- Python's `"\n".join`: concatenate with a newline between elements. -/
def joinLines : List String → String
  | [] => ""
  | [s] => s
  | s :: rest => s ++ "\n" ++ joinLines rest

/-- The `combined` string of `run_process`: stripped stdout and stderr,
empty strings dropped, joined with a newline. -/
def combineStreams (out err : String) : String :=
  joinLines (([pyStrip out, pyStrip err]).filter (fun s => s != ""))

/-- Embedding of `run_process(name, cmd, artifact_on_success)` without the
final locked append (the append is modelled separately): builds the result
record from the spawn behaviour of the command. -/
def run_process (name : String) (spawn : SpawnResult)
    (artifact_on_success : Option String) : JobOutcome :=
  match spawn with
  | .ok out err rc =>
    let combined := combineStreams out err
    if rc = 0 then
      { name := name
        status := .success
        file := match artifact_on_success with
          | some s => if s = "" then "" else s
          | none => ""
        message := if combined = "" then name.toUpper ++ " completed successfully"
          else combined }
    else
      { name := name
        status := .failed
        file := ""
        message := if combined = "" then
            "Process exited with return code " ++ toString rc
          else combined }
  | .launchFailure e =>
    { name := name
      status := .failed
      file := ""
      message := "Exception when running subtask " ++ name ++ ": " ++ e }

/-- The fetch worker (`run_fetch`): runs `fetch_data.py`, artifact
`aapl.csv` on success. -/
def run_fetch (s : SpawnResult) : JobOutcome :=
  run_process "fetch" s (some "aapl.csv")

/-- The pipeline-stub worker (`run_dag`): runs `airflow_dag.py`, artifact
`airflow_dag.py` on success. -/
def run_dag (s : SpawnResult) : JobOutcome :=
  run_process "dag" s (some "airflow_dag.py")

/-! ## Embedding of run_tasks.py: the dependency gate (run_load) -/

/-- Per-iteration observations of the polling loop in `run_load`: whether
`aapl.csv` exists at iteration `n`, and the status of the recorded `fetch`
result visible in `RESULTS` at iteration `n` (if any).  One loop iteration
corresponds to one second of elapsed wait (the loop sleeps 1s per
iteration). -/
structure GateEnv where
  fileExists : Nat → Bool
  fetchStatus : Nat → Option Status

/-- How one iteration of the polling loop resolves. -/
inductive GateDecision where
  | proceed
  | failFast
  | timedOut
deriving DecidableEq

/-- One iteration of the `while True` loop of `run_load` at iteration `n`
(elapsed wait `n` seconds): proceed if the artifact exists; fail fast if a
recorded fetch result is failed while the artifact is absent; fail if the
elapsed wait exceeds `wait_timeout`; otherwise sleep and continue
(`none`). -/
def decideAt (env : GateEnv) (wait_timeout n : Nat) : Option GateDecision :=
  if env.fileExists n then some .proceed
  else if env.fetchStatus n = some .failed then some .failFast
  else if wait_timeout < n then some .timedOut
  else none

/-- Fuel-indexed unfolding of the polling loop starting at iteration `n`:
returns the first iteration that resolves, with its decision. -/
def gateLoop (env : GateEnv) (wait_timeout : Nat) :
    Nat → Nat → Option (Nat × GateDecision)
  | 0, _ => none
  | fuel + 1, n =>
    match decideAt env wait_timeout n with
    | some d => some (n, d)
    | none => gateLoop env wait_timeout fuel (n + 1)

/-- The polling loop of `run_load`, run from iteration 0.  Fuel
`wait_timeout + 2` is sufficient because the timeout branch fires at
iteration `wait_timeout + 1` at the latest. -/
def gateRun (env : GateEnv) (wait_timeout : Nat) : Option (Nat × GateDecision) :=
  gateLoop env wait_timeout (wait_timeout + 2) 0

/-- The result `run_load` records when the fetch reported failure and the
artifact is absent. -/
def loadFailOutcome : JobOutcome :=
  { name := "load"
    status := .failed
    file := ""
    message := "LOAD ERROR: aapl.csv not found. Ensure fetch_data.py has been run and produced aapl.csv" }

/-- The result `run_load` records when the wait for `aapl.csv` times out. -/
def loadTimeoutOutcome (wait_timeout : Nat) : JobOutcome :=
  { name := "load"
    status := .failed
    file := ""
    message := "LOAD ERROR: timeout waiting for aapl.csv after "
      ++ toString wait_timeout ++ " seconds" }

/-- Embedding of `run_load(wait_timeout)`: poll via the gate; on `proceed`
run the load command (`load_data.py`, artifact `finance.db`); otherwise
record the gate's failure outcome without starting a process.  The boolean
reports whether the load process was invoked. -/
def run_load (env : GateEnv) (loadSpawn : SpawnResult) (wait_timeout : Nat) :
    Option (JobOutcome × Bool) :=
  match gateRun env wait_timeout with
  | some (_, .proceed) =>
    some (run_process "load" loadSpawn (some "finance.db"), true)
  | some (_, .failFast) => some (loadFailOutcome, false)
  | some (_, .timedOut) => some (loadTimeoutOutcome wait_timeout, false)
  | none => none

/-! ## Embedding of run_tasks.py: the aggregator and the orchestrator -/

/-- Interleaved execution of the locked appends to the shared `RESULTS`
list: `AggExec pending acc final` means that starting from the records
`pending` still to be appended (by concurrently running workers, in any
order) and the list contents `acc`, the run can end with list contents
`final`.  Each step atomically appends one pending record (the append runs
under `LOCK`), in any interleaving order. -/
inductive AggExec : List JobOutcome → List JobOutcome → List JobOutcome → Prop where
  | done (acc : List JobOutcome) : AggExec [] acc acc
  | step (pre post acc final : List JobOutcome) (e : JobOutcome) :
      AggExec (pre ++ post) (acc ++ [e]) final →
      AggExec (pre ++ e :: post) acc final

/-- Inputs of one orchestration run of `run_tasks.main`: the spawn
behaviour of the three child commands and the observations of the polling
gate. -/
structure OrchEnv where
  fetchSpawn : SpawnResult
  dagSpawn : SpawnResult
  loadSpawn : SpawnResult
  gateEnv : GateEnv

/-! ## Embedding of the synthetic fallback data generator (fetch_data.py)

Calendar dates are modelled as day numbers with day 0 a Monday, so
`d % 7 < 5` means `d` is a business day (the `freq='B'` weekday calendar of
`pandas.date_range`, no holidays).  Prices are modelled in `ℚ`; the draws
of the seeded `numpy.random.RandomState` are modelled as seed-indexed
streams (`rngRet seed` for `rng.normal`, `rngJit seed` for `rng.randint`),
which is exactly the determinism contract of `RandomState`. -/

/-- One row of the synthetic OHLCV frame. -/
structure OHLCVPoint where
  date : Nat
  open_ : ℚ
  high : ℚ
  low : ℚ
  close : ℚ
  volume : ℤ
deriving DecidableEq

/-- Day `d` is a weekday (Mon..Fri) in the day-number calendar. -/
def isBusinessDay (d : Nat) : Bool := d % 7 < 5

/-- The last business day on or before `d`: `pandas.date_range(end=d,
freq='B')` rolls a Saturday/Sunday end back to the preceding Friday. -/
def snapToBusinessDay (d : Nat) : Nat :=
  if d % 7 = 5 then d - 1 else if d % 7 = 6 then d - 2 else d

/-- The business day preceding business day `d` (Monday steps back to the
previous Friday). -/
def prevBusinessDay (d : Nat) : Nat :=
  if d % 7 = 0 then d - 3 else d - 1

/-- `k` business days before `e`. -/
def businessDayBack (e : Nat) : Nat → Nat
  | 0 => e
  | k + 1 => prevBusinessDay (businessDayBack e k)

/-- The `i`-th (0-based, of 22) timestamp of
`pd.date_range(end=refDate, periods=22, freq='B')`. -/
def seriesDate (refDate i : Nat) : Nat :=
  businessDayBack (snapToBusinessDay refDate) (21 - i)

/-- The `i`-th Close: `150 * (1 + returns).cumprod()` at position `i`. -/
def closeAt (ret : Nat → ℚ) (i : Nat) : ℚ :=
  150 * ((List.range (i + 1)).map (fun j => 1 + ret j)).prod

/-- The `i`-th Open: `close.shift(1).fillna(close.iloc[0])` — the previous
Close, or the first Close for the first row. -/
def openAt (ret : Nat → ℚ) : Nat → ℚ
  | 0 => closeAt ret 0
  | i + 1 => closeAt ret i

/-- The `i`-th row of the synthetic frame: High is `max(Open, Close) + 0.5`,
Low is `min(Open, Close) - 0.5`, Volume is `1000000 + rng.randint(-100000,
100000)`. -/
def synthPoint (ret : Nat → ℚ) (jit : Nat → ℤ) (refDate i : Nat) : OHLCVPoint :=
  { date := seriesDate refDate i
    open_ := openAt ret i
    high := max (openAt ret i) (closeAt ret i) + 1 / 2
    low := min (openAt ret i) (closeAt ret i) - 1 / 2
    close := closeAt ret i
    volume := 1000000 + jit i }

/-- The full synthetic fallback frame: 22 rows from the given return and
jitter draws. -/
def generate (ret : Nat → ℚ) (jit : Nat → ℤ) (refDate : Nat) : List OHLCVPoint :=
  (List.range 22).map (synthPoint ret jit refDate)

/-- The seed: `int(end.strftime('%Y%m%d')) % (2**32 - 1)` applied to the
numeric `YYYYMMDD` form of the reference date. -/
def seedOf (ymd : Nat) : Nat := ymd % (2 ^ 32 - 1)

/-- A full generator run: seed the random streams from the reference date's
`YYYYMMDD` form (`ymdOf` is the calendar rendering of a day number), then
generate the 22 rows. -/
def generateSeeded (rngRet : Nat → Nat → ℚ) (rngJit : Nat → Nat → ℤ)
    (ymdOf : Nat → Nat) (refDate : Nat) : List OHLCVPoint :=
  generate (rngRet (seedOf (ymdOf refDate))) (rngJit (seedOf (ymdOf refDate))) refDate

/-! ## Theorems -/

/-- C1: with `maxAttempts = 3` and `initialDelay = 2`: if the underlying
fetch fails exactly `k < 3` times and then succeeds, exactly `k + 1`
attempts occur and the outcome is success (exit code 0) with no
synthetic-fallback marker; if every attempt fails, exactly 3 attempts
occur, the sleeps between consecutive failed attempts are 2s then 4s
(doubling), control passes to the synthetic fallback, and the outcome is
success with a warning message quoting the last real error observed. -/
theorem fetch_retry_spec :
    (∀ (outcomes : Nat → AttemptOutcome) (wS : Bool) (k : Nat),
      k < 3 → (∀ j, j < k → (outcomes j).isSuccess = false) →
      (outcomes k).isSuccess = true →
      (fetch_main outcomes true wS).attempts = k + 1 ∧
      (fetch_main outcomes true wS).exitCode = 0 ∧
      (fetch_main outcomes true wS).usedFallback = false ∧
      (fetch_main outcomes true wS).warning = none) ∧
    (∀ (outcomes : Nat → AttemptOutcome) (wR : Bool),
      (∀ j, j < 3 → (outcomes j).isSuccess = false) →
      (fetch_main outcomes wR true).attempts = 3 ∧
      (fetch_main outcomes wR true).sleeps = [2, 4] ∧
      (fetch_main outcomes wR true).exitCode = 0 ∧
      (fetch_main outcomes wR true).usedFallback = true ∧
      (fetch_main outcomes wR true).warning =
        some ("FETCH WARNING: Using synthetic fallback data because fetching failed: "
          ++ (outcomes 2).errText)) := by
  constructor
  · intro outcomes wS k hk hfail hsucc
    interval_cases k
    · simp [fetch_main, fetchLoop, hsucc]
    · have h0 := hfail 0 (by omega)
      simp [fetch_main, fetchLoop, h0, hsucc]
    · have h0 := hfail 0 (by omega)
      have h1 := hfail 1 (by omega)
      simp [fetch_main, fetchLoop, h0, h1, hsucc]
  · intro outcomes wR hfail
    have h0 := hfail 0 (by omega)
    have h1 := hfail 1 (by omega)
    have h2 := hfail 2 (by omega)
    simp [fetch_main, fetchLoop, h0, h1, h2, lastErrStr]

/-- Witness for C1: a concrete run with one failure then success makes 2
attempts and succeeds without fallback, and a concrete always-failing run
makes 3 attempts, sleeps 2s then 4s, and succeeds via the fallback with a
warning quoting the last error. -/
theorem fetch_retry_spec_witness :
    ((fetch_main (fun j => if j = 0 then .raiseErr "boom" else .success) true true).attempts = 2 ∧
      (fetch_main (fun j => if j = 0 then .raiseErr "boom" else .success) true true).exitCode = 0 ∧
      (fetch_main (fun j => if j = 0 then .raiseErr "boom" else .success) true true).usedFallback = false ∧
      (fetch_main (fun j => if j = 0 then .raiseErr "boom" else .success) true true).warning = none) ∧
    ((fetch_main (fun _ => .emptyResult) true true).attempts = 3 ∧
      (fetch_main (fun _ => .emptyResult) true true).sleeps = [2, 4] ∧
      (fetch_main (fun _ => .emptyResult) true true).exitCode = 0 ∧
      (fetch_main (fun _ => .emptyResult) true true).usedFallback = true ∧
      (fetch_main (fun _ => .emptyResult) true true).warning =
        some ("FETCH WARNING: Using synthetic fallback data because fetching failed: "
          ++ (AttemptOutcome.emptyResult).errText)) := by
  constructor
  · exact fetch_retry_spec.1 (fun j => if j = 0 then .raiseErr "boom" else .success) true 1
      (by omega) (by intro j hj; interval_cases j; rfl) rfl
  · exact fetch_retry_spec.2 (fun _ => .emptyResult) true (by intro j hj; rfl)

/-- C2 counterexample: a run whose very first fetch attempt succeeds but
whose real-CSV write fails exits with code 1 (a hard failure) although the
synthetic-fallback section is never reached (and synthetic serialization
would have succeeded), so a hard failure is not only caused by failing
synthetic-artifact serialization. -/
theorem fetch_hard_fail_counterexample :
    (fetch_main (fun _ => .success) false true).exitCode = 1 ∧
    (fetch_main (fun _ => .success) false true).usedFallback = false := by
  decide

/-- C2 (amended): the fetch job exits with a hard failure (exit code 1)
exactly when artifact serialization fails — either some of the three
attempts fetches data but the real-CSV write fails, or all three attempts
fail and the synthetic-CSV write fails.  In particular every
upstream-data failure (error or empty result, on any attempt) is masked
whenever serialization succeeds. -/
theorem fetch_failure_modes (outcomes : Nat → AttemptOutcome) (wR wS : Bool) :
    (fetch_main outcomes wR wS).exitCode = 1 ↔
      (wR = false ∧ anySuccessIn3 outcomes = true) ∨
      (wS = false ∧ anySuccessIn3 outcomes = false) := by
  cases h0 : (outcomes 0).isSuccess <;> cases h1 : (outcomes 1).isSuccess <;>
    cases h2 : (outcomes 2).isSuccess <;> cases wR <;> cases wS <;>
      simp [fetch_main, fetchLoop, anySuccessIn3, h0, h1, h2]

/-- A string with a newline spliced between two others is never empty. -/
theorem append_newline_ne_empty (x y : String) : x ++ "\n" ++ y ≠ "" := by
  intro h
  have hlen : (x ++ "\n" ++ y).length = 0 := by rw [h]; rfl
  rw [String.length_append, String.length_append] at hlen
  have h1 : ("\n" : String).length = 1 := rfl
  omega

/-- C5: `run_process` maps exit code 0 to success and any other exit code or
launch failure to failed; the artifact is the caller-supplied path exactly on
success and empty otherwise; the message is stripped stdout then stripped
stderr joined with a newline, or the success/failure placeholder when both
streams are blank. -/
theorem run_process_spec (name out err exc : String) (rc : Int) (a : Option String) :
    ((run_process name (.ok out err rc) a).status = .success ↔ rc = 0) ∧
    (rc = 0 → ∀ p, a = some p → (run_process name (.ok out err rc) a).file = p) ∧
    (rc ≠ 0 → (run_process name (.ok out err rc) a).file = "") ∧
    (pyStrip out ≠ "" → pyStrip err ≠ "" →
      (run_process name (.ok out err rc) a).message = pyStrip out ++ "\n" ++ pyStrip err) ∧
    (pyStrip out ≠ "" → pyStrip err = "" →
      (run_process name (.ok out err rc) a).message = pyStrip out) ∧
    (pyStrip out = "" → pyStrip err ≠ "" →
      (run_process name (.ok out err rc) a).message = pyStrip err) ∧
    (pyStrip out = "" → pyStrip err = "" → rc = 0 →
      (run_process name (.ok out err rc) a).message =
        name.toUpper ++ " completed successfully") ∧
    (pyStrip out = "" → pyStrip err = "" → rc ≠ 0 →
      (run_process name (.ok out err rc) a).message =
        "Process exited with return code " ++ toString rc) ∧
    (run_process name (.launchFailure exc) a).status = .failed ∧
    (run_process name (.launchFailure exc) a).file = "" := by
  refine ⟨?_, ?_, ?_, ?_, ?_, ?_, ?_, ?_, rfl, rfl⟩
  · by_cases hrc : rc = 0 <;> simp [run_process, hrc]
  · intro hrc p hp
    subst hp
    by_cases hp0 : p = "" <;> simp [run_process, hrc, hp0]
  · intro hrc
    simp [run_process, hrc]
  · intro ho he
    have hcomb : combineStreams out err = pyStrip out ++ "\n" ++ pyStrip err := by
      simp [combineStreams, joinLines, ho, he]
    by_cases hrc : rc = 0 <;>
      simp [run_process, hrc, hcomb, append_newline_ne_empty]
  · intro ho he
    have hcomb : combineStreams out err = pyStrip out := by
      simp [combineStreams, joinLines, ho, he]
    by_cases hrc : rc = 0 <;> simp [run_process, hrc, hcomb, ho]
  · intro ho he
    have hcomb : combineStreams out err = pyStrip err := by
      simp [combineStreams, joinLines, ho, he]
    by_cases hrc : rc = 0 <;> simp [run_process, hrc, hcomb, he]
  · intro ho he hrc
    have hcomb : combineStreams out err = "" := by
      simp [combineStreams, joinLines, ho, he]
    simp [run_process, hrc, hcomb]
  · intro ho he hrc
    have hcomb : combineStreams out err = "" := by
      simp [combineStreams, joinLines, ho, he]
    simp [run_process, hrc, hcomb]

/-- Witness for C5: a concrete successful run attaches the artifact and the
trimmed output, and a concrete launch failure is failed with no artifact. -/
theorem run_process_spec_witness :
    (run_process "load" (.ok "  LOAD COMPLETE " "" 0) (some "finance.db")).status = .success ∧
    (run_process "load" (.ok "  LOAD COMPLETE " "" 0) (some "finance.db")).file = "finance.db" ∧
    (run_process "load" (.ok "  LOAD COMPLETE " "" 0) (some "finance.db")).message =
      pyStrip "  LOAD COMPLETE " ∧
    (run_process "dag" (.launchFailure "No such file or directory") (some "airflow_dag.py")).status = .failed := by
  refine ⟨?_, ?_, ?_, ?_⟩
  · exact (run_process_spec "load" "  LOAD COMPLETE " "" "e" 0 (some "finance.db")).1.mpr rfl
  · exact (run_process_spec "load" "  LOAD COMPLETE " "" "e" 0 (some "finance.db")).2.1 rfl
      "finance.db" rfl
  · exact (run_process_spec "load" "  LOAD COMPLETE " "" "e" 0
      (some "finance.db")).2.2.2.2.1 (by decide) rfl
  · exact (run_process_spec "dag" "" "" "No such file or directory" 0
      (some "airflow_dag.py")).2.2.2.2.2.2.2.2.1

/-- One gate iteration continues (returns no decision) exactly when the
artifact is absent, no failed fetch result is visible, and the elapsed wait
is within the timeout. -/
theorem decideAt_none_iff (env : GateEnv) (t m : Nat) :
    decideAt env t m = none ↔
      env.fileExists m = false ∧ env.fetchStatus m ≠ some .failed ∧ m ≤ t := by
  unfold decideAt
  split_ifs with h1 h2 h3 <;> simp_all

/-- Case analysis of a resolving gate iteration. -/
theorem decideAt_some_cases (env : GateEnv) (t n : Nat) (d : GateDecision)
    (h : decideAt env t n = some d) :
    (env.fileExists n = true ∧ d = .proceed) ∨
    (env.fileExists n = false ∧ env.fetchStatus n = some .failed ∧ d = .failFast) ∨
    (env.fileExists n = false ∧ env.fetchStatus n ≠ some .failed ∧ t < n ∧
      d = .timedOut) := by
  unfold decideAt at h
  split_ifs at h with h1 h2 h3 <;> simp_all

/-- Iteration `t + 1` always resolves (its elapsed wait exceeds the
timeout). -/
theorem decideAt_last_ne_none (env : GateEnv) (t : Nat) :
    decideAt env t (t + 1) ≠ none := by
  unfold decideAt
  split_ifs with h1 h2 h3 <;> simp_all

/-- The polling loop run with enough fuel finds the first resolving
iteration. -/
theorem gateLoop_finds (env : GateEnv) (t : Nat) :
    ∀ fuel n, n + fuel = t + 2 →
      (∀ m, m < n → decideAt env t m = none) →
      ∃ n' d, gateLoop env t fuel n = some (n', d) ∧ n ≤ n' ∧ n' ≤ t + 1 ∧
        (∀ m, m < n' → decideAt env t m = none) ∧ decideAt env t n' = some d := by
  intro fuel
  induction fuel with
  | zero =>
    intro n hn hnone
    exact absurd (hnone (t + 1) (by omega)) (decideAt_last_ne_none env t)
  | succ f ih =>
    intro n hn hnone
    cases hd : decideAt env t n with
    | some d =>
      exact ⟨n, d, by simp [gateLoop, hd], le_refl n, by omega, hnone, hd⟩
    | none =>
      obtain ⟨n', d, hloop, hle, hle2, hnone', hsome⟩ := ih (n + 1) (by omega)
        (by
          intro m hm
          rcases Nat.lt_succ_iff_lt_or_eq.mp hm with h | h
          · exact hnone m h
          · subst h; exact hd)
      exact ⟨n', d, by simp [gateLoop, hd, hloop], by omega, hle2, hnone', hsome⟩

/-- The gate always resolves, at an iteration no later than `t + 1`. -/
theorem gateRun_total (env : GateEnv) (t : Nat) :
    ∃ n d, gateRun env t = some (n, d) ∧ n ≤ t + 1 ∧
      (∀ m, m < n → decideAt env t m = none) ∧ decideAt env t n = some d := by
  obtain ⟨n, d, hloop, _, hle2, hnone, hsome⟩ :=
    gateLoop_finds env t (t + 2) 0 (by omega) (by intro m hm; omega)
  exact ⟨n, d, hloop, hle2, hnone, hsome⟩

/-- C3: the dependency gate returns exactly one of three outcomes, decided
at the first resolving poll `n` (every earlier poll saw no artifact, no
failed fetch record, and a wait within the timeout): if the artifact exists
at poll `n` it proceeds immediately, regardless of the fetch status, and
the load process is run; if a failed fetch record is visible while the
artifact is absent it returns the failed artifact-not-found outcome
immediately, even if the timeout has not elapsed; and if neither occurs by
the time the elapsed wait exceeds the timeout (poll `timeout + 1`), it
returns the failed outcome whose message names the timeout. -/
theorem gate_trichotomy (env : GateEnv) (loadSpawn : SpawnResult) (wait_timeout : Nat) :
    ∃ n d, gateRun env wait_timeout = some (n, d) ∧ n ≤ wait_timeout + 1 ∧
      (∀ m, m < n → env.fileExists m = false ∧
        env.fetchStatus m ≠ some .failed ∧ m ≤ wait_timeout) ∧
      ((env.fileExists n = true ∧ d = .proceed ∧
          run_load env loadSpawn wait_timeout =
            some (run_process "load" loadSpawn (some "finance.db"), true)) ∨
       (env.fileExists n = false ∧ env.fetchStatus n = some .failed ∧
          d = .failFast ∧ loadFailOutcome.status = .failed ∧
          run_load env loadSpawn wait_timeout = some (loadFailOutcome, false)) ∨
       (env.fileExists n = false ∧ env.fetchStatus n ≠ some .failed ∧
          n = wait_timeout + 1 ∧ d = .timedOut ∧
          (loadTimeoutOutcome wait_timeout).status = .failed ∧
          (loadTimeoutOutcome wait_timeout).message =
            "LOAD ERROR: timeout waiting for aapl.csv after "
              ++ toString wait_timeout ++ " seconds" ∧
          run_load env loadSpawn wait_timeout =
            some (loadTimeoutOutcome wait_timeout, false))) := by
  obtain ⟨n, d, hrun, hle, hnone, hsome⟩ := gateRun_total env wait_timeout
  refine ⟨n, d, hrun, hle, ?_, ?_⟩
  · intro m hm
    exact (decideAt_none_iff env wait_timeout m).mp (hnone m hm)
  · rcases decideAt_some_cases env wait_timeout n d hsome with
      ⟨hf, hd⟩ | ⟨hf, hst, hd⟩ | ⟨hf, hst, hlt, hd⟩
    · subst hd
      exact Or.inl ⟨hf, rfl, by simp [run_load, hrun]⟩
    · subst hd
      exact Or.inr (Or.inl ⟨hf, hst, rfl, rfl, by simp [run_load, hrun]⟩)
    · subst hd
      exact Or.inr (Or.inr ⟨hf, hst, by omega, rfl, rfl, rfl,
        by simp [run_load, hrun]⟩)

/-- Witness for C3: with the artifact present from the very first poll the
gate proceeds at poll 0 and runs the load process. -/
theorem gate_trichotomy_witness :
    ∃ n d,
      gateRun ⟨fun _ => true, fun _ => none⟩ 60 = some (n, d) ∧ n ≤ 60 + 1 ∧
      (∀ m, m < n → (true : Bool) = false ∧
        (none : Option Status) ≠ some .failed ∧ m ≤ 60) ∧
      (((true : Bool) = true ∧ d = .proceed ∧
          run_load ⟨fun _ => true, fun _ => none⟩ (.ok "LOAD COMPLETE" "" 0) 60 =
            some (run_process "load" (.ok "LOAD COMPLETE" "" 0) (some "finance.db"), true)) ∨
       ((true : Bool) = false ∧ (none : Option Status) = some .failed ∧
          d = .failFast ∧ loadFailOutcome.status = .failed ∧
          run_load ⟨fun _ => true, fun _ => none⟩ (.ok "LOAD COMPLETE" "" 0) 60 =
            some (loadFailOutcome, false)) ∨
       ((true : Bool) = false ∧ (none : Option Status) ≠ some .failed ∧
          n = 60 + 1 ∧ d = .timedOut ∧
          (loadTimeoutOutcome 60).status = .failed ∧
          (loadTimeoutOutcome 60).message =
            "LOAD ERROR: timeout waiting for aapl.csv after "
              ++ toString 60 ++ " seconds" ∧
          run_load ⟨fun _ => true, fun _ => none⟩ (.ok "LOAD COMPLETE" "" 0) 60 =
            some (loadTimeoutOutcome 60, false))) := by
  exact gate_trichotomy ⟨fun _ => true, fun _ => none⟩ (.ok "LOAD COMPLETE" "" 0) 60

/-- A result built by `run_process` always carries the worker's name. -/
theorem run_process_name (name : String) (s : SpawnResult) (a : Option String) :
    (run_process name s a).name = name := by
  cases s with
  | ok o e rc => by_cases h : rc = 0 <;> simp [run_process, h]
  | launchFailure e => rfl

/-- What `run_load` records, as a function of the gate's decision: it
always records exactly one outcome, named `load`; the load process is
invoked exactly when the gate proceeded, and otherwise the recorded outcome
is the gate's failure outcome. -/
theorem run_load_char (env : GateEnv) (loadSpawn : SpawnResult) (t : Nat) :
    ∃ lo invoked, run_load env loadSpawn t = some (lo, invoked) ∧
      lo.name = "load" ∧
      (invoked = true → lo = run_process "load" loadSpawn (some "finance.db") ∧
        ∃ n, gateRun env t = some (n, .proceed)) ∧
      (invoked = false → lo = loadFailOutcome ∨ lo = loadTimeoutOutcome t) := by
  obtain ⟨n, d, hrun, -, -, -⟩ := gateRun_total env t
  cases d with
  | proceed =>
    exact ⟨_, true, by simp [run_load, hrun], run_process_name _ _ _,
      fun _ => ⟨rfl, n, hrun⟩, by simp⟩
  | failFast =>
    exact ⟨loadFailOutcome, false, by simp [run_load, hrun], rfl, by simp,
      fun _ => Or.inl rfl⟩
  | timedOut =>
    exact ⟨loadTimeoutOutcome t, false, by simp [run_load, hrun], rfl, by simp,
      fun _ => Or.inr rfl⟩

/-- C4: the orchestrator joins all three workers and every execution's
report holds exactly one outcome per job: the load worker always records
exactly one outcome (the gate always resolves), and whatever order the
three workers finish in (any permutation arrival order of the three
appends), the final result list has length 3 with exactly one entry named
`fetch`, one named `dag` and one named `load`; moreover the load worker
invokes its external process exactly when the gate proceeded, and
otherwise records the gate's failure outcome without starting a process. -/
theorem orchestrator_spec (env : OrchEnv) (wait_timeout : Nat) :
    ∃ lo invoked,
      run_load env.gateEnv env.loadSpawn wait_timeout = some (lo, invoked) ∧
      (run_fetch env.fetchSpawn).name = "fetch" ∧
      (run_dag env.dagSpawn).name = "dag" ∧ lo.name = "load" ∧
      (∀ arrival : List JobOutcome,
        arrival.Perm [run_fetch env.fetchSpawn, run_dag env.dagSpawn, lo] →
        arrival.length = 3 ∧
        arrival.countP (fun o => o.name == "fetch") = 1 ∧
        arrival.countP (fun o => o.name == "dag") = 1 ∧
        arrival.countP (fun o => o.name == "load") = 1) ∧
      (invoked = true → lo = run_process "load" env.loadSpawn (some "finance.db") ∧
        ∃ n, gateRun env.gateEnv wait_timeout = some (n, .proceed)) ∧
      (invoked = false → lo = loadFailOutcome ∨ lo = loadTimeoutOutcome wait_timeout) := by
  obtain ⟨lo, invoked, h, hname, hinv, hninv⟩ :=
    run_load_char env.gateEnv env.loadSpawn wait_timeout
  have hF : (run_fetch env.fetchSpawn).name = "fetch" := run_process_name _ _ _
  have hD : (run_dag env.dagSpawn).name = "dag" := run_process_name _ _ _
  refine ⟨lo, invoked, h, hF, hD, hname, ?_, hinv, hninv⟩
  intro arrival hperm
  refine ⟨hperm.length_eq.trans rfl, ?_, ?_, ?_⟩ <;>
    rw [hperm.countP_eq] <;>
      simp [List.countP_cons, hF, hD, hname]

/-- Witness for C4: a concrete environment where every worker spawns
successfully and the artifact is present at the first poll. -/
theorem orchestrator_spec_witness :
    ∃ lo invoked,
      run_load (OrchEnv.mk (.ok "FETCH COMPLETE" "" 0) (.ok "DAG COMPLETE" "" 0)
          (.ok "LOAD COMPLETE" "" 0) ⟨fun _ => true, fun _ => none⟩).gateEnv
        (OrchEnv.mk (.ok "FETCH COMPLETE" "" 0) (.ok "DAG COMPLETE" "" 0)
          (.ok "LOAD COMPLETE" "" 0) ⟨fun _ => true, fun _ => none⟩).loadSpawn 60 =
          some (lo, invoked) ∧
      (run_fetch (.ok "FETCH COMPLETE" "" 0)).name = "fetch" ∧
      (run_dag (.ok "DAG COMPLETE" "" 0)).name = "dag" ∧ lo.name = "load" ∧
      (∀ arrival : List JobOutcome,
        arrival.Perm [run_fetch (.ok "FETCH COMPLETE" "" 0),
          run_dag (.ok "DAG COMPLETE" "" 0), lo] →
        arrival.length = 3 ∧
        arrival.countP (fun o => o.name == "fetch") = 1 ∧
        arrival.countP (fun o => o.name == "dag") = 1 ∧
        arrival.countP (fun o => o.name == "load") = 1) ∧
      (invoked = true → lo = run_process "load" (.ok "LOAD COMPLETE" "" 0) (some "finance.db") ∧
        ∃ n, gateRun ⟨fun _ => true, fun _ => none⟩ 60 = some (n, .proceed)) ∧
      (invoked = false → lo = loadFailOutcome ∨ lo = loadTimeoutOutcome 60) := by
  exact orchestrator_spec (OrchEnv.mk (.ok "FETCH COMPLETE" "" 0) (.ok "DAG COMPLETE" "" 0)
    (.ok "LOAD COMPLETE" "" 0) ⟨fun _ => true, fun _ => none⟩) 60

/-- Any interleaved execution of the locked appends ends with the list
holding the initial contents followed by the appended records, as a
permutation of the pending multiset. -/
theorem aggExec_perm {pending acc final : List JobOutcome}
    (h : AggExec pending acc final) : final.Perm (acc ++ pending) := by
  induction h with
  | done acc => simp
  | step pre post acc final e hrec ih =>
    have h1 : (acc ++ [e]) ++ (pre ++ post) = acc ++ e :: (pre ++ post) := by
      simp
    rw [h1] at ih
    exact ih.trans (List.Perm.append_left acc List.perm_middle.symm)

/-- C9: when the `N` workers' records are appended concurrently under the
lock (any interleaving of the atomic appends, starting from the empty
list), the final list holds exactly `N` entries, is a permutation of the
appended records (no lost and no duplicated record: every record occurs
exactly as often as it was appended), and lists the records in the
arrival order of the appends. -/
theorem aggregator_spec (pending final : List JobOutcome)
    (h : AggExec pending [] final) :
    final.length = pending.length ∧ final.Perm pending ∧
    ∀ o : JobOutcome, final.count o = pending.count o := by
  have hp : final.Perm pending := by simpa using aggExec_perm h
  exact ⟨hp.length_eq, hp, fun o => hp.count_eq o⟩

/-- Witness for C9: a concrete interleaving in which the `dag` worker's
append wins the lock first yields both records, none lost, none
duplicated. -/
theorem aggregator_spec_witness :
    ([⟨"dag", .success, "airflow_dag.py", "DAG COMPLETE"⟩,
      ⟨"fetch", .success, "aapl.csv", "FETCH COMPLETE"⟩] : List JobOutcome).length =
      ([⟨"fetch", .success, "aapl.csv", "FETCH COMPLETE"⟩,
        ⟨"dag", .success, "airflow_dag.py", "DAG COMPLETE"⟩] : List JobOutcome).length ∧
    ([⟨"dag", .success, "airflow_dag.py", "DAG COMPLETE"⟩,
      ⟨"fetch", .success, "aapl.csv", "FETCH COMPLETE"⟩] : List JobOutcome).Perm
      [⟨"fetch", .success, "aapl.csv", "FETCH COMPLETE"⟩,
        ⟨"dag", .success, "airflow_dag.py", "DAG COMPLETE"⟩] := by
  have hexec : AggExec
      [⟨"fetch", .success, "aapl.csv", "FETCH COMPLETE"⟩,
        ⟨"dag", .success, "airflow_dag.py", "DAG COMPLETE"⟩] []
      [⟨"dag", .success, "airflow_dag.py", "DAG COMPLETE"⟩,
        ⟨"fetch", .success, "aapl.csv", "FETCH COMPLETE"⟩] :=
    AggExec.step [⟨"fetch", .success, "aapl.csv", "FETCH COMPLETE"⟩] [] []
      [⟨"dag", .success, "airflow_dag.py", "DAG COMPLETE"⟩,
        ⟨"fetch", .success, "aapl.csv", "FETCH COMPLETE"⟩]
      ⟨"dag", .success, "airflow_dag.py", "DAG COMPLETE"⟩
      (AggExec.step [] [] [⟨"dag", .success, "airflow_dag.py", "DAG COMPLETE"⟩]
        [⟨"dag", .success, "airflow_dag.py", "DAG COMPLETE"⟩,
          ⟨"fetch", .success, "aapl.csv", "FETCH COMPLETE"⟩]
        ⟨"fetch", .success, "aapl.csv", "FETCH COMPLETE"⟩
        (AggExec.done [⟨"dag", .success, "airflow_dag.py", "DAG COMPLETE"⟩,
          ⟨"fetch", .success, "aapl.csv", "FETCH COMPLETE"⟩]))
  have h := aggregator_spec
    [⟨"fetch", .success, "aapl.csv", "FETCH COMPLETE"⟩,
      ⟨"dag", .success, "airflow_dag.py", "DAG COMPLETE"⟩]
    [⟨"dag", .success, "airflow_dag.py", "DAG COMPLETE"⟩,
      ⟨"fetch", .success, "aapl.csv", "FETCH COMPLETE"⟩] hexec
  exact ⟨h.1, h.2.1⟩

/-- Snapping lands on a business day. -/
theorem isBusinessDay_snap (d : Nat) :
    isBusinessDay (snapToBusinessDay d) = true := by
  simp only [isBusinessDay, snapToBusinessDay, decide_eq_true_eq]
  split_ifs with h1 h2 <;> omega

/-- Stepping back from a business day lands on a business day. -/
theorem isBusinessDay_prev (d : Nat) (h : isBusinessDay d = true) :
    isBusinessDay (prevBusinessDay d) = true := by
  simp only [isBusinessDay, decide_eq_true_eq] at h ⊢
  unfold prevBusinessDay
  split_ifs with h1 <;> omega

/-- Any number of business-day steps back from a business day lands on a
business day. -/
theorem isBusinessDay_back (e k : Nat) (h : isBusinessDay e = true) :
    isBusinessDay (businessDayBack e k) = true := by
  induction k with
  | zero => exact h
  | succ k ih => exact isBusinessDay_prev _ ih

/-- A business-day reference date is its own snap. -/
theorem snap_of_businessDay (d : Nat) (h : isBusinessDay d = true) :
    snapToBusinessDay d = d := by
  simp only [isBusinessDay, decide_eq_true_eq] at h
  unfold snapToBusinessDay
  split_ifs with h1 h2 <;> omega

/-- The multiplicative compounding recurrence of the Close series. -/
theorem closeAt_succ (ret : Nat → ℚ) (i : Nat) :
    closeAt ret (i + 1) = closeAt ret i * (1 + ret (i + 1)) := by
  simp only [closeAt, List.range_succ, List.map_append, List.prod_append,
    List.map_cons, List.map_nil, List.prod_cons, List.prod_nil]
  ring

/-- The first Close compounds one return onto the base price 150. -/
theorem closeAt_zero (ret : Nat → ℚ) : closeAt ret 0 = 150 * (1 + ret 0) := by
  simp only [closeAt, List.range_succ, List.range_zero, List.nil_append,
    List.map_cons, List.map_nil, List.prod_cons, List.prod_nil]
  ring

/-- Indexing the generated series. -/
theorem generate_getElem? (ret : Nat → ℚ) (jit : Nat → ℤ) (refDate i : Nat)
    (h : i < 22) :
    (generate ret jit refDate)[i]? = some (synthPoint ret jit refDate i) := by
  simp [generate, List.getElem?_map, List.getElem?_range, h]

/-- Inversion of indexing the generated series. -/
theorem generate_getElem?_inv (ret : Nat → ℚ) (jit : Nat → ℤ)
    (refDate i : Nat) (p : OHLCVPoint)
    (h : (generate ret jit refDate)[i]? = some p) :
    i < 22 ∧ p = synthPoint ret jit refDate i := by
  have hi : i < 22 := by
    by_contra hge
    rw [List.getElem?_eq_none (by simp [generate]; omega)] at h
    exact Option.noConfusion h
  rw [generate_getElem? ret jit refDate i hi] at h
  exact ⟨hi, (Option.some_inj.mp h).symm⟩

/-- C6: the synthetic generator is deterministic in the reference date: two
runs over the same seeded random streams with the same reference date use
the same derived seed (`YYYYMMDD` form modulo `2^32 - 1`) and produce
identical series — the same 22 points with the same date, Open, High, Low,
Close and Volume at every index. -/
theorem synth_determinism (rngRet : Nat → Nat → ℚ) (rngJit : Nat → Nat → ℤ)
    (ymdOf : Nat → Nat) (d e : Nat) (h : d = e) :
    seedOf (ymdOf d) = seedOf (ymdOf e) ∧
    generateSeeded rngRet rngJit ymdOf d = generateSeeded rngRet rngJit ymdOf e ∧
    (generateSeeded rngRet rngJit ymdOf d).length = 22 ∧
    (∀ i : Nat, (generateSeeded rngRet rngJit ymdOf d)[i]? =
      (generateSeeded rngRet rngJit ymdOf e)[i]?) := by
  subst h
  refine ⟨rfl, rfl, ?_, fun i => rfl⟩
  simp [generateSeeded, generate]

/-- Witness for C6: a concrete pair of runs on the same reference date. -/
theorem synth_determinism_witness :
    seedOf 20260119 = seedOf 20260119 ∧
    generateSeeded (fun _ _ => 0) (fun _ _ => 0) (fun _ => 20260119) 7 =
      generateSeeded (fun _ _ => 0) (fun _ _ => 0) (fun _ => 20260119) 7 ∧
    (generateSeeded (fun _ _ => 0) (fun _ _ => 0) (fun _ => 20260119) 7).length = 22 ∧
    (∀ i : Nat, (generateSeeded (fun _ _ => 0) (fun _ _ => 0) (fun _ => 20260119) 7)[i]? =
      (generateSeeded (fun _ _ => 0) (fun _ _ => 0) (fun _ => 20260119) 7)[i]?) := by
  exact synth_determinism (fun _ _ => 0) (fun _ _ => 0) (fun _ => 20260119) 7 7 rfl

/-- C7: every generated point has High at least `max(Open, Close)` and Low
at most `min(Open, Close)`, for any reference date and any draws. -/
theorem high_low_invariant (ret : Nat → ℚ) (jit : Nat → ℤ) (refDate : Nat) :
    ∀ p ∈ generate ret jit refDate,
      max p.open_ p.close ≤ p.high ∧ p.low ≤ min p.open_ p.close := by
  intro p hp
  simp only [generate, List.mem_map] at hp
  obtain ⟨i, -, rfl⟩ := hp
  constructor
  · show max (openAt ret i) (closeAt ret i) ≤
      max (openAt ret i) (closeAt ret i) + 1 / 2
    linarith
  · show min (openAt ret i) (closeAt ret i) - 1 / 2 ≤
      min (openAt ret i) (closeAt ret i)
    linarith

/-- Witness for C7: the invariant at a concrete point of a concrete run. -/
theorem high_low_invariant_witness :
    max (synthPoint (fun _ => 0) (fun _ => 0) 18 0).open_
        (synthPoint (fun _ => 0) (fun _ => 0) 18 0).close ≤
      (synthPoint (fun _ => 0) (fun _ => 0) 18 0).high ∧
    (synthPoint (fun _ => 0) (fun _ => 0) 18 0).low ≤
      min (synthPoint (fun _ => 0) (fun _ => 0) 18 0).open_
        (synthPoint (fun _ => 0) (fun _ => 0) 18 0).close := by
  exact high_low_invariant (fun _ => 0) (fun _ => 0) 18
    (synthPoint (fun _ => 0) (fun _ => 0) 18 0)
    (List.mem_map.mpr ⟨0, List.mem_range.mpr (by omega), rfl⟩)

/-- C8 counterexample: with reference day 12 — a Saturday in the day-number
calendar (day 0 is a Monday) — the series of 22 business days ends at day
11 (the preceding Friday), not at the reference date, because
`pd.date_range(end, periods, freq='B')` rolls a non-business end date back. -/
theorem series_end_counterexample :
    ((generate (fun _ => 0) (fun _ => 0) 12).map (fun p => p.date)).getLast? =
      some 11 ∧
    ((generate (fun _ => 0) (fun _ => 0) 12).map (fun p => p.date)).getLast? ≠
      some 12 ∧
    isBusinessDay 12 = false := by
  refine ⟨by decide, ?_, by decide⟩
  intro h
  rw [show ((generate (fun _ => 0) (fun _ => 0) 12).map
    (fun p => p.date)).getLast? = some 11 by decide] at h
  simp at h

/-- C8 (amended): the synthetic series consists of exactly 22 business-day
timestamps ending at the last business day on or before the reference date
(the reference date itself whenever it is a business day); Close is
obtained by multiplicatively compounding the daily returns from base price
150 (first Close `150 * (1 + r 0)`, then `Close i * (1 + r (i+1))`), and
each day's Open equals the previous day's Close, the first day's Open
equalling the first day's Close. -/
theorem series_shape (ret : Nat → ℚ) (jit : Nat → ℤ) (refDate : Nat) :
    (generate ret jit refDate).length = 22 ∧
    (∀ p ∈ generate ret jit refDate, isBusinessDay p.date = true) ∧
    ((generate ret jit refDate).map (fun p => p.date)).getLast? =
      some (snapToBusinessDay refDate) ∧
    (isBusinessDay refDate = true → snapToBusinessDay refDate = refDate) ∧
    (∀ p, (generate ret jit refDate)[0]? = some p →
      p.close = 150 * (1 + ret 0) ∧ p.open_ = p.close) ∧
    (∀ i p q, (generate ret jit refDate)[i + 1]? = some p →
      (generate ret jit refDate)[i]? = some q →
      p.close = q.close * (1 + ret (i + 1)) ∧ p.open_ = q.close) := by
  refine ⟨by simp [generate], ?_, ?_, snap_of_businessDay refDate, ?_, ?_⟩
  · intro p hp
    simp only [generate, List.mem_map] at hp
    obtain ⟨i, -, rfl⟩ := hp
    exact isBusinessDay_back _ _ (isBusinessDay_snap refDate)
  · have hrange : List.range 22 = List.range 21 ++ [21] := by
      rw [show (22 : Nat) = 21 + 1 from rfl, List.range_succ]
    simp only [generate, List.map_map, hrange, List.map_append, List.map_cons,
      List.map_nil]
    rw [List.getLast?_concat]
    rfl
  · intro p hp
    obtain ⟨-, rfl⟩ := generate_getElem?_inv ret jit refDate 0 p hp
    exact ⟨closeAt_zero ret, rfl⟩
  · intro i p q hp hq
    obtain ⟨-, rfl⟩ := generate_getElem?_inv ret jit refDate (i + 1) p hp
    obtain ⟨-, rfl⟩ := generate_getElem?_inv ret jit refDate i q hq
    exact ⟨closeAt_succ ret i, rfl⟩

/-- Witness for C8: concrete instances of the amended claim — reference day
18 (a Friday) is its own series end, and the second point compounds the
first. -/
theorem series_shape_witness :
    snapToBusinessDay 18 = 18 ∧
    (generate (fun _ => 0) (fun _ => 0) 18).length = 22 ∧
    (∀ p, (generate (fun _ => (0 : ℚ)) (fun _ => 0) 18)[0]? = some p →
      p.close = 150 * (1 + 0) ∧ p.open_ = p.close) := by
  refine ⟨?_, ?_, ?_⟩
  · exact (series_shape (fun _ => 0) (fun _ => 0) 18).2.2.2.1 (by decide)
  · exact (series_shape (fun _ => 0) (fun _ => 0) 18).1
  · exact (series_shape (fun _ => 0) (fun _ => 0) 18).2.2.2.2.1

/-- C10: every generated point's Volume is the base 1,000,000 plus the
jitter `rng.randint(-100000, 100000)`, hence an integer between 900,000 and
1,099,999 inclusive, given `randint`'s half-open range contract. -/
theorem volume_bounds (ret : Nat → ℚ) (jit : Nat → ℤ) (refDate : Nat)
    (hj : ∀ i, -100000 ≤ jit i ∧ jit i < 100000) :
    ∀ p ∈ generate ret jit refDate,
      900000 ≤ p.volume ∧ p.volume ≤ 1099999 := by
  intro p hp
  simp only [generate, List.mem_map] at hp
  obtain ⟨i, -, rfl⟩ := hp
  have := hj i
  show 900000 ≤ 1000000 + jit i ∧ 1000000 + jit i ≤ 1099999
  omega

/-- Witness for C10: the bounds at a concrete point of a concrete run with
an extreme jitter draw. -/
theorem volume_bounds_witness :
    900000 ≤ (synthPoint (fun _ => 0) (fun _ => 99999) 18 3).volume ∧
    (synthPoint (fun _ => 0) (fun _ => 99999) 18 3).volume ≤ 1099999 := by
  exact volume_bounds (fun _ => 0) (fun _ => 99999) 18
    (fun i => ⟨by norm_num, by norm_num⟩)
    (synthPoint (fun _ => 0) (fun _ => 99999) 18 3)
    (List.mem_map.mpr ⟨3, List.mem_range.mpr (by omega), rfl⟩)

end ConcurrentTasks
